import Mathlib

/-!
Shallow embedding of the route handler `GET /api/users/[id]/posts` from
`src/app/api/users/[id]/posts/route.js`, together with models of its external
collaborators: the Mongoose document store (`connectToDB`, `Prompt.find`,
`.populate("creator")`), `JSON.stringify`, and the WHATWG Fetch `Response`
constructor.  Failures of the external collaborators (which in JavaScript
surface as thrown exceptions inside the handler's `try` block) are modelled
by explicit failure flags on the database state and `Except` results.
-/

/-- The Owner entity ("creator"): an identity record with a unique identifier. -/
structure Owner where
  _id : String
  name : String
deriving DecidableEq

/-- The Item entity ("prompt"): a record with a foreign-key field `creator`
referencing an Owner by identifier, plus content. -/
structure Prompt where
  _id : String
  creator : String
  content : String
deriving DecidableEq

/-- A prompt document after `.populate("creator")`: the bare foreign key is
replaced by the referenced Owner document, or by `none` (JSON `null`) when the
reference does not resolve to any owner. -/
structure PopulatedPrompt where
  _id : String
  creator : Option Owner
  content : String
deriving DecidableEq

/-- The external document store: the owners and prompts collections. -/
structure Store where
  owners : List Owner
  prompts : List Prompt
deriving DecidableEq

/-- Process-wide database state: the live store, the connection flag set by
`connectToDB`, and flags modelling whether each external collaborator
(connection setup, the query round-trip, `JSON.stringify`) fails by throwing
on this invocation. -/
structure DB where
  store : Store
  connected : Bool
  connectFails : Bool
  queryFails : Bool
  stringifyFails : Bool
deriving DecidableEq

/-- An inbound HTTP request; the handler binds it as `req` and never reads it. -/
structure Request where
  method : String
  headers : List (String × String)
  body : String
deriving DecidableEq

/-- An HTTP response: status code, body text, and the response headers. -/
structure Response where
  status : Nat
  body : String
  headers : List (String × String)
deriving DecidableEq

/-- The kinds of internal failure that can be thrown inside the `try` block. -/
inductive DBErr where
  | connectionFailure
  | queryFailure
  | serializationFailure
deriving DecidableEq

/-- `connectToDB()` from `@utlis/database`: idempotent connection setup.  It
throws on connection failure and otherwise leaves the process connected. -/
def connectToDB (db : DB) : Except DBErr DB :=
  if db.connectFails then .error .connectionFailure
  else .ok { db with connected := true }

/-- `Prompt.find({ creator: params.id })`: every document of the prompts
collection whose `creator` field equals `id`, in store order. -/
def Prompt.find (s : Store) (id : String) : List Prompt :=
  s.prompts.filter (fun p => p.creator == id)

/-- `.populate("creator")` on a single document: replace the bare foreign key
with the referenced Owner document (`null` when no owner matches it). -/
def populateOne (s : Store) (p : Prompt) : PopulatedPrompt :=
  ⟨p._id, s.owners.find? (fun o => o._id == p.creator), p.content⟩

/-- `.populate("creator")` over a whole query result, document by document. -/
def populateCreator (s : Store) (ps : List Prompt) : List PopulatedPrompt :=
  ps.map (populateOne s)

/-- JSON string escaping as performed by `JSON.stringify` (quotes and
backslashes; the fields handled here contain no control characters). -/
def jsonEscape (s : String) : String :=
  String.join (s.toList.map (fun c =>
    if c = '"' then "\\\""
    else if c = '\\' then "\\\\"
    else String.singleton c))

/-- A JSON string literal. -/
def jsonStr (s : String) : String := "\"" ++ jsonEscape s ++ "\""

/-- `JSON.stringify` of an Owner document. -/
def Owner.toJsonString (o : Owner) : String :=
  "\x7b\"_id\":" ++ jsonStr o._id ++ ",\"name\":" ++ jsonStr o.name ++ "\x7d"

/-- `JSON.stringify` of a populated creator field (`null` when unresolved). -/
def creatorToJsonString : Option Owner → String
  | none => "null"
  | some o => o.toJsonString

/-- `JSON.stringify` of one populated prompt document. -/
def PopulatedPrompt.toJsonString (p : PopulatedPrompt) : String :=
  "\x7b\"_id\":" ++ jsonStr p._id ++ ",\"creator\":" ++ creatorToJsonString p.creator
    ++ ",\"content\":" ++ jsonStr p.content ++ "\x7d"

/-- `JSON.stringify` of the query result: a JSON array with one element per
document, in list order. -/
def stringifyArr (ps : List PopulatedPrompt) : String :=
  "[" ++ String.intercalate "," (ps.map PopulatedPrompt.toJsonString) ++ "]"

/-- The WHATWG Fetch `Response` constructor as invoked by the handler:
`new Response(body, { status })` with a string body and no `headers` option
yields the default header `Content-Type: text/plain;charset=UTF-8`. -/
def mkResponse (body : String) (status : Nat) : Response :=
  ⟨status, body, [("Content-Type", "text/plain;charset=UTF-8")]⟩

/-- The awaited `Prompt.find({ creator: id }).populate("creator")` round-trip:
throws when the store or query fails, otherwise returns the populated matches. -/
def runQuery (db : DB) (id : String) : Except DBErr (List PopulatedPrompt) :=
  if db.queryFails then .error .queryFailure
  else .ok (populateCreator db.store (Prompt.find db.store id))

/-- `JSON.stringify(prompts)`: throws when serialization fails, otherwise the
JSON text of the populated query result. -/
def stringify (db : DB) (ps : List PopulatedPrompt) : Except DBErr String :=
  if db.stringifyFails then .error .serializationFailure
  else .ok (stringifyArr ps)

/-- The fixed body of the `catch` branch. -/
def failedBody : String := "Failed to create a new prompt"

/-- The route handler `GET(req, { params })`: connect, query and populate,
stringify, respond 200; any failure thrown by a step is caught by the
surrounding `try`/`catch` and flattened to a fixed 500 response.  The result
is the HTTP response paired with the database state after the invocation. -/
def GET (req : Request) (id : String) (db : DB) : Response × DB :=
  match connectToDB db with
  | .error _ => (mkResponse failedBody 500, db)
  | .ok db1 =>
    match runQuery db1 id with
    | .error _ => (mkResponse failedBody 500, db1)
    | .ok prompts =>
      match stringify db1 prompts with
      | .error _ => (mkResponse failedBody 500, db1)
      | .ok body => (mkResponse body 200, db1)

/-- Sample store from the spec's example scenario. -/
def store0 : Store :=
  ⟨[⟨"u1", "Alice"⟩], [⟨"p1", "u1", "hi"⟩, ⟨"p2", "u1", "yo"⟩, ⟨"p3", "u2", "x"⟩]⟩

/-- Sample healthy database state. -/
def db0 : DB := ⟨store0, false, false, false, false⟩

/-- Sample database state whose connection setup fails. -/
def dbConnFail : DB := ⟨store0, false, true, false, false⟩

/-- Sample request. -/
def req0 : Request := ⟨"GET", [], ""⟩

/-- Another sample request, differing from `req0` in every field. -/
def req1 : Request := ⟨"POST", [("X-Extra", "1")], "ignored"⟩

/-- Unfolding lemma: the handler's behaviour as a case split on the three
failure flags. -/
theorem GET_eq (req : Request) (id : String) (db : DB) :
    GET req id db =
      if db.connectFails then (mkResponse failedBody 500, db)
      else if db.queryFails then (mkResponse failedBody 500, { db with connected := true })
      else if db.stringifyFails then
        (mkResponse failedBody 500, { db with connected := true })
      else
        (mkResponse (stringifyArr (populateCreator db.store (Prompt.find db.store id))) 200,
          { db with connected := true }) := by
  unfold GET connectToDB runQuery stringify
  by_cases h1 : db.connectFails = true <;> simp [h1] <;>
    by_cases h2 : db.queryFails = true <;> simp [h2] <;>
      by_cases h3 : db.stringifyFails = true <;> simp [h3]

/-- C9: for every invocation, the status code of the response returned by the
handler is either 200 or 500; no other status code is ever produced. -/
theorem GET_status_200_or_500 (db : DB) (req : Request) (id : String) :
    (GET req id db).1.status = 200 ∨ (GET req id db).1.status = 500 := by
  rw [GET_eq]
  by_cases h1 : db.connectFails = true <;> by_cases h2 : db.queryFails = true <;>
    by_cases h3 : db.stringifyFails = true <;> simp [h1, h2, h3, mkResponse]

/-- C10: the handler's response depends only on the route parameter `id` and
the database state; the request object (method, headers, body) has no
influence, since `req` is never read. -/
theorem GET_ignores_request (db : DB) (id : String) (ra rb : Request) :
    GET ra id db = GET rb id db := rfl

/-- C5: the handler is deterministic with respect to the store: re-invoking it
with the same `id` on the state left behind by a first invocation yields an
identical response body. -/
theorem GET_repeat_same_body (db : DB) (req : Request) (id : String) :
    (GET req id ((GET req id db).2)).1.body = (GET req id db).1.body := by
  by_cases h1 : db.connectFails = true <;> by_cases h2 : db.queryFails = true <;>
    by_cases h3 : db.stringifyFails = true <;> simp [GET_eq, h1, h2, h3]

/-- C6: every invocation leaves the document store unchanged; the only state
the handler may touch is the idempotent connection flag, so the post-state is
either the pre-state or the pre-state with `connected` set. -/
theorem GET_store_unchanged (db : DB) (req : Request) (id : String) :
    (GET req id db).2.store = db.store ∧
    ((GET req id db).2 = db ∨ (GET req id db).2 = { db with connected := true }) := by
  rw [GET_eq]
  by_cases h1 : db.connectFails = true <;> by_cases h2 : db.queryFails = true <;>
    by_cases h3 : db.stringifyFails = true <;> simp [h1, h2, h3]

/-- C2: every failure during connection, query, or serialization is caught at
the handler boundary and flattened to one fixed response: HTTP 500 with the
plain-text body "Failed to create a new prompt"; the response value is the
same constant for all three failure kinds, so the caller cannot tell them
apart, and the handler (a total function here) propagates no exception. -/
theorem GET_failure_flattened (db : DB) (req : Request) (id : String)
    (h : db.connectFails = true ∨ db.queryFails = true ∨ db.stringifyFails = true) :
    (GET req id db).1 = mkResponse failedBody 500 ∧
    (GET req id db).1.status = 500 ∧
    (GET req id db).1.body = "Failed to create a new prompt" := by
  rw [GET_eq]
  by_cases h1 : db.connectFails = true
  · simp [h1, mkResponse, failedBody]
  · by_cases h2 : db.queryFails = true
    · simp [h1, h2, mkResponse, failedBody]
    · by_cases h3 : db.stringifyFails = true
      · simp [h1, h2, h3, mkResponse, failedBody]
      · rcases h with h | h | h
        · exact absurd h h1
        · exact absurd h h2
        · exact absurd h h3

/-- Witness for C2 at a concrete failing connection. -/
theorem GET_failure_flattened_witness :
    dbConnFail.connectFails = true ∧
    ((GET req0 "u1" dbConnFail).1 = mkResponse failedBody 500 ∧
      (GET req0 "u1" dbConnFail).1.status = 500 ∧
      (GET req0 "u1" dbConnFail).1.body = "Failed to create a new prompt") :=
  ⟨rfl, GET_failure_flattened dbConnFail req0 "u1" (Or.inl rfl)⟩

/-- C3: for an `id` with zero matching items the handler returns HTTP 200 with
the empty JSON array, not an error response. -/
theorem GET_zero_matches (db : DB) (req : Request) (id : String)
    (hc : db.connectFails = false) (hq : db.queryFails = false)
    (hs : db.stringifyFails = false) (h0 : Prompt.find db.store id = []) :
    (GET req id db).1.status = 200 ∧ (GET req id db).1.body = "[]" := by
  rw [GET_eq]
  simp [hc, hq, hs, h0, mkResponse, populateCreator, stringifyArr, String.intercalate]

/-- Witness for C3 at a concrete identifier with no matching items. -/
theorem GET_zero_matches_witness :
    Prompt.find db0.store "zzz" = [] ∧
    ((GET req0 "zzz" db0).1.status = 200 ∧ (GET req0 "zzz" db0).1.body = "[]") :=
  ⟨by decide, GET_zero_matches db0 req0 "zzz" rfl rfl rfl (by decide)⟩

/-- C1: for an Owner identifier `id` with N matching items in the store, a
successful invocation returns HTTP 200 whose body is the JSON serialization of
an array of exactly N elements, each element's `creator` field replaced by the
populated Owner document matching `id`. -/
theorem GET_success_shape (db : DB) (req : Request) (id : String) (o : Owner)
    (hc : db.connectFails = false) (hq : db.queryFails = false)
    (hs : db.stringifyFails = false)
    (ho : db.store.owners.find? (fun ow => ow._id == id) = some o) :
    (GET req id db).1.status = 200 ∧ o._id = id ∧
    ∃ l : List PopulatedPrompt,
      (GET req id db).1.body = stringifyArr l ∧
      l.length = (Prompt.find db.store id).length ∧
      ∀ p ∈ l, p.creator = some o := by
  have hoid : o._id = id := by
    have h := List.find?_some ho
    simpa using h
  rw [GET_eq]
  refine ⟨by simp [hc, hq, hs, mkResponse], hoid,
    populateCreator db.store (Prompt.find db.store id),
    by simp [hc, hq, hs, mkResponse], by simp [populateCreator], ?_⟩
  intro p hp
  rcases List.mem_map.mp hp with ⟨q, hqmem, rfl⟩
  have hcr : q.creator = id := by
    have h := (List.mem_filter.mp hqmem).2
    simpa using h
  simp [populateOne, hcr, ho]

/-- Witness for C1 on the spec's example store, identifier "u1". -/
theorem GET_success_shape_witness :
    db0.store.owners.find? (fun ow => ow._id == "u1") = some ⟨"u1", "Alice"⟩ ∧
    ((GET req0 "u1" db0).1.status = 200 ∧ (⟨"u1", "Alice"⟩ : Owner)._id = "u1" ∧
      ∃ l : List PopulatedPrompt,
        (GET req0 "u1" db0).1.body = stringifyArr l ∧
        l.length = (Prompt.find db0.store "u1").length ∧
        ∀ p ∈ l, p.creator = some ⟨"u1", "Alice"⟩) :=
  ⟨by decide, GET_success_shape db0 req0 "u1" ⟨"u1", "Alice"⟩ rfl rfl rfl (by decide)⟩

/-- C4 counterexample: a concrete successful (HTTP 200) invocation whose
response does not carry the header `Content-Type: application/json`; the
handler passes no headers option, so the Fetch default applies. -/
theorem GET_no_json_content_type :
    (GET req0 "u1" db0).1.status = 200 ∧
    ("Content-Type", "application/json") ∉ (GET req0 "u1" db0).1.headers := by
  refine ⟨by decide, ?_⟩
  intro h
  simp [GET_eq, db0, mkResponse] at h

/-- C4 amended: every successful (HTTP 200) response carries the default
header `Content-Type: text/plain;charset=UTF-8`, because the handler passes no
headers option to the `Response` constructor. -/
theorem GET_success_content_type_default (db : DB) (req : Request) (id : String)
    (h : (GET req id db).1.status = 200) :
    (GET req id db).1.headers = [("Content-Type", "text/plain;charset=UTF-8")] := by
  rw [GET_eq]
  by_cases h1 : db.connectFails = true <;> by_cases h2 : db.queryFails = true <;>
    by_cases h3 : db.stringifyFails = true <;> simp [h1, h2, h3, mkResponse]

/-- Witness for the amended C4 at a concrete successful invocation. -/
theorem GET_success_content_type_default_witness :
    (GET req0 "u1" db0).1.status = 200 ∧
    (GET req0 "u1" db0).1.headers = [("Content-Type", "text/plain;charset=UTF-8")] :=
  ⟨by decide, GET_success_content_type_default db0 req0 "u1" (by decide)⟩

/-- C7: the serialized JSON array lists its elements in exactly the order in
which matching items are returned by the store's find operation: the body is
the bracketed comma-join of the serializations of `Prompt.find`'s results, in
order, with no sort or reordering imposed by the handler. -/
theorem GET_preserves_find_order (db : DB) (req : Request) (id : String)
    (hc : db.connectFails = false) (hq : db.queryFails = false)
    (hs : db.stringifyFails = false) :
    (GET req id db).1.body
      = "[" ++ String.intercalate ","
          ((Prompt.find db.store id).map (fun p => (populateOne db.store p).toJsonString))
        ++ "]" := by
  rw [GET_eq]
  simp [hc, hq, hs, mkResponse, stringifyArr, populateCreator, List.map_map]
  rfl

/-- Witness for C7 on the spec's example store. -/
theorem GET_preserves_find_order_witness :
    db0.connectFails = false ∧
    (GET req0 "u1" db0).1.body
      = "[" ++ String.intercalate ","
          ((Prompt.find db0.store "u1").map (fun p => (populateOne db0.store p).toJsonString))
        ++ "]" :=
  ⟨rfl, GET_preserves_find_order db0 req0 "u1" rfl rfl rfl⟩

/-- C8: the route parameter `id` is used directly and unmodified as the
equality filter on the prompts' `creator` field — a prompt is selected exactly
when its `creator` equals `id` as a string — and no validation rejects any
`id`: the invocation still succeeds with HTTP 200. -/
theorem GET_filter_is_exact_id (db : DB) (req : Request) (id : String) (p : Prompt)
    (hc : db.connectFails = false) (hq : db.queryFails = false)
    (hs : db.stringifyFails = false) :
    (GET req id db).1.status = 200 ∧
    (GET req id db).1.body = stringifyArr (populateCreator db.store (Prompt.find db.store id)) ∧
    (p ∈ Prompt.find db.store id ↔ p ∈ db.store.prompts ∧ p.creator = id) := by
  rw [GET_eq]
  refine ⟨by simp [hc, hq, hs, mkResponse], by simp [hc, hq, hs, mkResponse], ?_⟩
  simp [Prompt.find, List.mem_filter]

/-- Witness for C8 at a malformed identifier containing spaces and symbols. -/
theorem GET_filter_is_exact_id_witness :
    db0.connectFails = false ∧
    ((GET req0 " u1!" db0).1.status = 200 ∧
      (GET req0 " u1!" db0).1.body
        = stringifyArr (populateCreator db0.store (Prompt.find db0.store " u1!")) ∧
      ((⟨"p1", "u1", "hi"⟩ : Prompt) ∈ Prompt.find db0.store " u1!" ↔
        (⟨"p1", "u1", "hi"⟩ : Prompt) ∈ db0.store.prompts ∧
          (⟨"p1", "u1", "hi"⟩ : Prompt).creator = " u1!")) :=
  ⟨rfl, GET_filter_is_exact_id db0 req0 " u1!" ⟨"p1", "u1", "hi"⟩ rfl rfl rfl⟩
